import Mathlib

/-!
Verification of the batch analysis engine of the AI-Photo-Analyzer
repository (`ollama_image_analyzer`), as a shallow embedding in Lean 4.

The embedding follows the Python source:
  * `ollama_image_analyzer/core/ollama_client.py`
      (`AnalysisResult`, `OllamaAnalyzer.validate_response`,
       `_get_numbered_path`, `analyze_image`, `is_supported_image`,
       `get_vision_models`, `save_result`, `save_yaml_sidecar`,
       `write_to_image_metadata`)
  * `ollama_image_analyzer/gui/batch_worker.py` (`BatchAnalysisWorker.run`)
  * `ollama_image_analyzer/gui/main_window.py`
      (batch metrics tracking, `_update_batch_progress_with_eta`)

File-system interaction is modelled by an abstract existence predicate
`PathM → Bool`; the network is modelled by `Except`-valued call outcomes.
-/

namespace PhotoAnalyzer

/-! ## Characters and Python string primitives

`str.strip` / `str.split` / `str.isalnum` / `str.isspace` on the ASCII
fragment used by the analyzer.  Python whitespace (ASCII part) is
space, tab, newline, carriage return, vertical tab, form feed. -/

/-- ASCII whitespace as recognised by Python's `str.strip`/`str.split`. -/
def isPyWs (c : Char) : Bool :=
  c = ' ' || c = '\t' || c = '\n' || c = '\r' || c = '\x0b' || c = '\x0c'

/-- `str.isalnum() or str.isspace()` on a single ASCII character
(`c.isalnum() or c.isspace()` in `validate_response`). -/
def isAlnumOrWs (c : Char) : Bool :=
  c.isAlphanum || isPyWs c

/-- Python `str.strip()` on a character list. -/
def pyStrip (cs : List Char) : List Char :=
  ((cs.dropWhile isPyWs).reverse.dropWhile isPyWs).reverse

/-- Python `str.split()` (no argument): split on whitespace runs,
dropping empty fragments.  `acc` holds the current word reversed. -/
def pySplitAux : List Char → List Char → List (List Char)
  | [], acc => if acc.isEmpty then [] else [acc.reverse]
  | c :: rest, acc =>
    if isPyWs c then
      if acc.isEmpty then pySplitAux rest []
      else acc.reverse :: pySplitAux rest []
    else pySplitAux rest (c :: acc)

/-- Python `str.split()` of a string, as lists of characters. -/
def pySplit (cs : List Char) : List (List Char) :=
  pySplitAux cs []

/-- Python `str.lower()` on a character list (ASCII). -/
def pyLower (cs : List Char) : List Char :=
  cs.map Char.toLower

/-! ## Response validator — `OllamaAnalyzer.validate_response`

The Python function returns `(is_valid, error_message)`.  We mirror the
message of each early return by a constructor of `VReason`:
  * `empty`          — "Response is empty"
  * `tooShort n`     — "Response too short (n chars, minimum 20)"
  * `tooLong n`      — "Response too long (n words, maximum 10000)"
  * `gibberishAvg`   — "Response appears to be gibberish (avg word length: …)"
  * `specialChars`   — "Response contains excessive special characters …"
  * `repetition`     — "Response contains excessive repetition"
The numeric thresholds are the Python defaults
`min_chars = 20`, `max_words = 10000`, `min_avg_word_length = 2.0`.
Float comparisons `avg < 2.0`, `ratio < 0.7`, `ratio < 0.3` are carried
out exactly on the rationals they denote (cross-multiplied). -/

inductive VReason where
  | empty
  | tooShort (chars : Nat)
  | tooLong (words : Nat)
  | gibberishAvg
  | specialChars
  | repetition
deriving DecidableEq, Repr

/-- Shallow embedding of `OllamaAnalyzer.validate_response` at the default
parameters.  Returns `(is_valid, reason?)`. -/
def validate_response (response : String) : Bool × Option VReason :=
  let cs := response.toList
  -- `if not response or not response.strip(): return False, "Response is empty"`
  if pyStrip cs = [] then (false, some .empty)
  else
    let r := pyStrip cs
    -- `if len(response) < min_chars`
    if r.length < 20 then (false, some (.tooShort r.length))
    else
      let words := pySplit r
      let word_count := words.length
      -- `if word_count > max_words`
      if word_count > 10000 then (false, some (.tooLong word_count))
      else
        -- `meaningful_words = [w for w in words if len(w) > 1]`
        let meaningful_words := words.filter (fun w => w.length > 1)
        -- `avg_word_length < min_avg_word_length`  ⟺  Σ|w| < 2 · #words
        if meaningful_words.length ≠ 0 ∧
            (meaningful_words.map List.length).sum < 2 * meaningful_words.length then
          (false, some .gibberishAvg)
        else
          -- `alphanumeric_chars / len(response) < 0.7` ⟺ 10·a < 7·len
          let alphanumeric_chars := (r.filter isAlnumOrWs).length
          if 10 * alphanumeric_chars < 7 * r.length then
            (false, some .specialChars)
          else
            -- `len(words) >= 10` and `len(unique_words)/len(words) < 0.3`
            if words.length ≥ 10 ∧
                10 * (words.map pyLower).dedup.length < 3 * words.length then
              (false, some .repetition)
            else (true, none)

/-! Conditions of the specification's rejection list, stated directly on the
same string primitives; `rejectSpec` is their disjunction. -/

/-- The six rejection conditions of the spec (§4.3), as one disjunction:
empty/whitespace-only; trimmed length < 20; word count > 10000; average
length of the words longer than one character < 2.0; alphanumeric-or-
whitespace fraction < 0.7; with ≥ 10 words, distinct-lowercased ratio
< 0.3. -/
def rejectSpec (response : String) : Prop :=
  let r := pyStrip response.toList
  let words := pySplit r
  let meaningful_words := words.filter (fun w => w.length > 1)
  r = []
  ∨ r.length < 20
  ∨ words.length > 10000
  ∨ (meaningful_words.length ≠ 0 ∧
      (meaningful_words.map List.length).sum < 2 * meaningful_words.length)
  ∨ 10 * (r.filter isAlnumOrWs).length < 7 * r.length
  ∨ (words.length ≥ 10 ∧
      10 * (words.map pyLower).dedup.length < 3 * words.length)

/-- A string of `n + 1` words "a" separated by single spaces, used to
exercise the word-count bound: `a a a … a`. -/
def manyWords : Nat → List Char
  | 0 => ['a']
  | n + 1 => 'a' :: ' ' :: manyWords n

end PhotoAnalyzer

namespace PhotoAnalyzer

lemma isPyWs_a : isPyWs 'a' = false := by decide

lemma isPyWs_space : isPyWs ' ' = true := by decide

lemma manyWords_length (n : Nat) : (manyWords n).length = 2 * n + 1 := by
  induction n with
  | zero => rfl
  | succ k ih => simp [manyWords, ih]; ring

lemma manyWords_append (n : Nat) : ∃ l, manyWords n = l ++ ['a'] := by
  induction n with
  | zero => exact ⟨[], rfl⟩
  | succ k ih =>
    obtain ⟨l, hl⟩ := ih
    exact ⟨'a' :: ' ' :: l, by simp [manyWords, hl]⟩

lemma dropWhile_manyWords (n : Nat) :
    (manyWords n).dropWhile isPyWs = manyWords n := by
  cases n with
  | zero => simp [manyWords, List.dropWhile, isPyWs_a]
  | succ k => simp [manyWords, List.dropWhile, isPyWs_a]

lemma pyStrip_manyWords (n : Nat) : pyStrip (manyWords n) = manyWords n := by
  obtain ⟨l, hl⟩ := manyWords_append n
  unfold pyStrip
  rw [dropWhile_manyWords, hl]
  simp [List.dropWhile, isPyWs_a]

lemma pySplit_manyWords (n : Nat) :
    pySplit (manyWords n) = List.replicate (n + 1) ['a'] := by
  induction n with
  | zero => rfl
  | succ k ih =>
    unfold pySplit at ih ⊢
    simp [manyWords, pySplitAux, isPyWs_a, isPyWs_space, ih, List.replicate_succ]

lemma manyWords_ne_nil (n : Nat) : manyWords n ≠ [] := by
  intro h
  have := manyWords_length n
  rw [h] at this
  simp at this

/-- A 10001-word response is rejected for exceeding the 10000-word cap. -/
lemma validate_manyWords :
    validate_response (String.mk (manyWords 10000)) =
      (false, some (VReason.tooLong 10001)) := by
  unfold validate_response
  rw [show (String.mk (manyWords 10000)).toList = manyWords 10000 from rfl]
  dsimp only
  rw [pyStrip_manyWords, if_neg (manyWords_ne_nil 10000)]
  rw [manyWords_length]
  rw [if_neg (by norm_num : ¬(2 * 10000 + 1 < 20))]
  rw [pySplit_manyWords, List.length_replicate]
  rw [if_pos (by norm_num : (10001 : Nat) > 10000)]

/-- `validate_response` rejects exactly when one of the six spec
conditions holds. -/
lemma validate_iff_rejectSpec (s : String) :
    (validate_response s).1 = false ↔ rejectSpec s := by
  unfold validate_response rejectSpec
  dsimp only
  split_ifs with h1 h2 h3 h4 h5 h6 <;> simp_all <;> tauto

/-! ## File-system paths

A `pathlib.Path` is modelled by its parent directory (kept abstract as a
string) and its final component `name`.  `nameStem`/`nameSuffix` follow
pathlib: the suffix starts at the last dot of `name`, provided that dot
is neither the first nor the last character; otherwise the suffix is
empty and the stem is the whole name.  The file system itself is an
abstract existence predicate `PathM → Bool` (`Path.exists`). -/

structure PathM where
  parent : String
  name : String
deriving DecidableEq, Repr

/-- Position of the last `'.'` in a character list (`str.rfind('.')`). -/
def lastDotPos (cs : List Char) : Option Nat :=
  ((cs.enum.filter (fun p => p.2 = '.')).map Prod.fst).getLast?

/-- `pathlib.PurePath.suffix` of a file name. -/
def nameSuffix (name : String) : String :=
  let cs := name.toList
  match lastDotPos cs with
  | none => ""
  | some i => if 0 < i ∧ i < cs.length - 1 then String.mk (cs.drop i) else ""

/-- `pathlib.PurePath.stem` of a file name. -/
def nameStem (name : String) : String :=
  let cs := name.toList
  match lastDotPos cs with
  | none => name
  | some i => if 0 < i ∧ i < cs.length - 1 then String.mk (cs.take i) else name

/-- `pathlib.PurePath.with_suffix`: replace the suffix of the name. -/
def with_suffix (p : PathM) (suffix : String) : PathM :=
  { parent := p.parent, name := nameStem p.name ++ suffix }

/-! ## Numbered-path generation — `OllamaAnalyzer._get_numbered_path` -/

/-- The candidate `parent / f"{stem}_{counter}{suffix}"` built inside the
`while True` loop of `_get_numbered_path`. -/
def numberedCandidate (original_path : PathM) (counter : Nat) : PathM :=
  { parent := original_path.parent,
    name := nameStem original_path.name ++ "_" ++ toString counter ++
      nameSuffix original_path.name }

/-- The `while True` loop of `_get_numbered_path`: try the candidates at
`counter, counter + 1, …`; `fuel` counts the candidates still allowed
before the `counter > 9999` safety limit raises `IOError`.  The source
tries counters `1 … 9999` and then raises, which is `numberedSearch … 1
9999`. -/
def numberedSearch (ex : PathM → Bool) (original_path : PathM) :
    Nat → Nat → Except String PathM
  | _, 0 => Except.error ("Too many numbered files for " ++ original_path.name)
  | counter, fuel + 1 =>
    let new_path := numberedCandidate original_path counter
    if ex new_path then numberedSearch ex original_path (counter + 1) fuel
    else Except.ok new_path

/-- Shallow embedding of `OllamaAnalyzer._get_numbered_path`.  `ex` is the
file-system existence predicate.  `Except.error` is the `IOError` raised
past the 9999 safety limit. -/
def get_numbered_path (ex : PathM → Bool) (original_path : PathM) :
    Except String PathM :=
  if ex original_path = false then Except.ok original_path
  else numberedSearch ex original_path 1 9999

lemma numberedSearch_ok_not_exists (ex : PathM → Bool) (orig : PathM) :
    ∀ fuel counter p, numberedSearch ex orig counter fuel = Except.ok p →
      ex p = false := by
  intro fuel
  induction fuel with
  | zero => intro counter p h; simp [numberedSearch] at h
  | succ k ih =>
    intro counter p h
    unfold numberedSearch at h
    by_cases hx : ex (numberedCandidate orig counter)
    · rw [if_pos hx] at h
      exact ih (counter + 1) p h
    · rw [if_neg hx] at h
      cases h
      exact eq_false_of_ne_true hx

lemma numberedSearch_ok_shape (ex : PathM → Bool) (orig : PathM) :
    ∀ fuel counter p, numberedSearch ex orig counter fuel = Except.ok p →
      ∃ j, j < fuel ∧ p = numberedCandidate orig (counter + j) ∧
        ∀ i, i < j → ex (numberedCandidate orig (counter + i)) = true := by
  intro fuel
  induction fuel with
  | zero => intro counter p h; simp [numberedSearch] at h
  | succ k ih =>
    intro counter p h
    unfold numberedSearch at h
    by_cases hx : ex (numberedCandidate orig counter)
    · rw [if_pos hx] at h
      obtain ⟨j, hj, hp, hall⟩ := ih (counter + 1) p h
      refine ⟨j + 1, by omega, by rw [hp]; ring_nf, ?_⟩
      intro i hi
      cases i with
      | zero => simpa using hx
      | succ i' =>
        have := hall i' (by omega)
        simpa [Nat.add_assoc, Nat.add_comm, Nat.add_left_comm] using this
    · rw [if_neg hx] at h
      cases h
      exact ⟨0, by omega, by simp, by omega⟩

lemma numberedSearch_exhausted (ex : PathM → Bool) (orig : PathM) :
    ∀ fuel counter,
      (∀ i, i < fuel → ex (numberedCandidate orig (counter + i)) = true) →
      numberedSearch ex orig counter fuel =
        Except.error ("Too many numbered files for " ++ orig.name) := by
  intro fuel
  induction fuel with
  | zero => intro counter _; rfl
  | succ k ih =>
    intro counter hall
    unfold numberedSearch
    rw [if_pos ?_]
    · refine ih (counter + 1) ?_
      intro i hi
      have := hall (i + 1) (by omega)
      simpa [Nat.add_assoc, Nat.add_comm, Nat.add_left_comm] using this
    · have := hall 0 (by omega)
      simpa using this

/-- `photo.txt` in some directory. -/
def photoTxt : PathM := ⟨"", "photo.txt"⟩

/-- `photo_1.txt` beside it. -/
def photo1Txt : PathM := ⟨"", "photo_1.txt"⟩

/-- `photo_2.txt` beside it. -/
def photo2Txt : PathM := ⟨"", "photo_2.txt"⟩

end PhotoAnalyzer

namespace PhotoAnalyzer

/-- C5 counterexample: the spec's example string `"x x x x x x x x x x"`
has only 19 characters after trimming, so `validate_response` rejects it
with the too-short reason before the repetition check is ever reached —
not with the repetition-ratio reason the claim states. -/
theorem C5_repetition_reason_counterexample :
    validate_response "x x x x x x x x x x" =
      (false, some (VReason.tooShort 19))
    ∧ some (VReason.tooShort 19) ≠ some VReason.repetition := by
  constructor
  · decide
  · decide

/-- C5 (amended): `validate_response` rejects exactly when one of the six
conditions holds (emptiness; trimmed length < 20; > 10000 words; average
length of words longer than one character < 2.0; alphanumeric-or-
whitespace fraction < 0.7; ≥ 10 words with distinct-lowercased ratio
< 0.3).  `"abcd"` is rejected as too short, a 10001-word string is
rejected as too long, `"aa bb cc dd ee ff gg hh ii jj"` is accepted, and
`"x x x x x x x x x x"` is rejected — but, being 19 characters long, with
the too-short reason rather than the repetition-ratio reason. -/
theorem C5_validator_amended :
    (∀ s, (validate_response s).1 = false ↔ rejectSpec s)
    ∧ validate_response "abcd" = (false, some (VReason.tooShort 4))
    ∧ validate_response (String.mk (manyWords 10000)) =
        (false, some (VReason.tooLong 10001))
    ∧ validate_response "aa bb cc dd ee ff gg hh ii jj" = (true, none)
    ∧ validate_response "x x x x x x x x x x" =
        (false, some (VReason.tooShort 19)) :=
  ⟨validate_iff_rejectSpec, by decide, validate_manyWords, by decide, by decide⟩

/-- C6: numbered-path generation never returns a path that already exists;
for an existing `photo.txt` (with `photo_1.txt` free) it returns
`photo_1.txt`, and with `photo_1.txt` also taken it returns
`photo_2.txt`; every returned path is the first free candidate
`{stem}_{N}{suffix}` for increasing `N` starting at 1 with `N ≤ 9999`;
and when all 9999 candidates exist the search fails with the
`IOError "Too many numbered files …"` instead of returning a path. -/
theorem C6_numbered_path :
    (∀ (ex : PathM → Bool) (orig p : PathM),
        get_numbered_path ex orig = Except.ok p → ex p = false)
    ∧ get_numbered_path (fun p => p == photoTxt) photoTxt =
        Except.ok photo1Txt
    ∧ get_numbered_path (fun p => p == photoTxt || p == photo1Txt) photoTxt =
        Except.ok photo2Txt
    ∧ (∀ (ex : PathM → Bool) (orig p : PathM), ex orig = true →
        get_numbered_path ex orig = Except.ok p →
        ∃ n, 1 ≤ n ∧ n ≤ 9999 ∧ p = numberedCandidate orig n ∧
          ∀ k, 1 ≤ k → k < n → ex (numberedCandidate orig k) = true)
    ∧ (∀ (ex : PathM → Bool) (orig : PathM), ex orig = true →
        (∀ n, 1 ≤ n → n ≤ 9999 → ex (numberedCandidate orig n) = true) →
        get_numbered_path ex orig =
          Except.error ("Too many numbered files for " ++ orig.name)) := by
  refine ⟨?_, by rfl, by rfl, ?_, ?_⟩
  · intro ex orig p h
    unfold get_numbered_path at h
    by_cases hx : ex orig = false
    · rw [if_pos hx] at h; cases h; exact hx
    · rw [if_neg hx] at h
      exact numberedSearch_ok_not_exists ex orig 9999 1 p h
  · intro ex orig p hex h
    unfold get_numbered_path at h
    rw [if_neg (by simp [hex])] at h
    obtain ⟨j, hj, hp, hall⟩ := numberedSearch_ok_shape ex orig 9999 1 p h
    refine ⟨1 + j, by omega, by omega, hp, ?_⟩
    intro k hk1 hkj
    have := hall (k - 1) (by omega)
    have hk : 1 + (k - 1) = k := by omega
    rwa [hk] at this
  · intro ex orig hex hall
    unfold get_numbered_path
    rw [if_neg (by simp [hex])]
    refine numberedSearch_exhausted ex orig 9999 1 ?_
    intro i hi
    exact hall (1 + i) (by omega) (by omega)

/-- C6 witness: concrete instantiations of the universally quantified
parts of `C6_numbered_path`. -/
theorem C6_numbered_path_witness :
    ((fun p => p == photoTxt) photo1Txt = false)
    ∧ get_numbered_path (fun _ => true) photoTxt =
        Except.error ("Too many numbered files for " ++ photoTxt.name) :=
  ⟨C6_numbered_path.1 (fun p => p == photoTxt) photoTxt photo1Txt (by rfl),
   C6_numbered_path.2.2.2.2 (fun _ => true) photoTxt rfl (fun _ _ _ => rfl)⟩

/-! ## `AnalysisResult` and the inference client

`AnalysisResult` mirrors the `@dataclass` in `ollama_client.py`; all
durations are in nanoseconds and all counts in tokens, as `Option Nat`
because the server may omit them. -/

structure AnalysisResult where
  success : Bool
  response : String
  model : String
  error : Option String := none
  image_path : Option PathM := none
  total_duration : Option Nat := none
  load_duration : Option Nat := none
  prompt_eval_count : Option Nat := none
  prompt_eval_duration : Option Nat := none
  eval_count : Option Nat := none
  eval_duration : Option Nat := none
deriving DecidableEq, Repr

/-- The fields of a successful `client.chat` response that
`analyze_image` extracts. -/
structure ChatResponse where
  content : String
  total_duration : Option Nat := none
  load_duration : Option Nat := none
  prompt_eval_count : Option Nat := none
  prompt_eval_duration : Option Nat := none
  eval_count : Option Nat := none
  eval_duration : Option Nat := none
deriving DecidableEq, Repr

/-- `OllamaAnalyzer.SUPPORTED_FORMATS`. -/
def SUPPORTED_FORMATS : List String :=
  [".jpg", ".jpeg", ".png", ".webp", ".gif", ".bmp", ".tiff"]

/-- `str.lower()` of a whole string (ASCII). -/
def pyLowerStr (s : String) : String := String.mk (pyLower s.toList)

/-- `OllamaAnalyzer.is_supported_image`:
`file_path.suffix.lower() in SUPPORTED_FORMATS`. -/
def is_supported_image (file_path : PathM) : Bool :=
  SUPPORTED_FORMATS.contains (pyLowerStr (nameSuffix file_path.name))

/-- Shallow embedding of `OllamaAnalyzer.analyze_image`.  `ex` is the
file-system existence predicate and `chat` the outcome the network call
would have (`Except.error` for a raised exception).  The second component
of the result records whether the network call was actually made: both
guard failures return before it.  The function is total — it never
raises. -/
def analyze_image (ex : PathM → Bool) (chat : Except String ChatResponse)
    (image_path : PathM) (model : String) : AnalysisResult × Bool :=
  if ex image_path = false then
    ({ success := false, response := "", model := model,
       error := some ("Image file not found: " ++ image_path.name),
       image_path := some image_path }, false)
  else if is_supported_image image_path = false then
    ({ success := false, response := "", model := model,
       error := some ("Unsupported image format: " ++ nameSuffix image_path.name),
       image_path := some image_path }, false)
  else
    match chat with
    | Except.error e =>
      ({ success := false, response := "", model := model,
         error := some ("Analysis failed: " ++ e),
         image_path := some image_path }, true)
    | Except.ok resp =>
      ({ success := true, response := resp.content, model := model,
         error := none, image_path := some image_path,
         total_duration := resp.total_duration,
         load_duration := resp.load_duration,
         prompt_eval_count := resp.prompt_eval_count,
         prompt_eval_duration := resp.prompt_eval_duration,
         eval_count := resp.eval_count,
         eval_duration := resp.eval_duration }, true)

/-! ## Vision-model listing — `OllamaAnalyzer.get_vision_models` -/

/-- Python's substring test `needle in haystack` on character lists. -/
def containsSub : List Char → List Char → Bool
  | needle, [] => needle.isEmpty
  | needle, c :: rest => needle.isPrefixOf (c :: rest) || containsSub needle rest

/-- `any(keyword in model.lower() for keyword in vision_keywords)` with
the fixed keyword list of `get_vision_models`. -/
def vision_keywords : List String :=
  ["llava", "bakllava", "moondream", "vision", "clip"]

/-- The per-model filter of `get_vision_models`. -/
def isVisionName (model : String) : Bool :=
  vision_keywords.any (fun keyword => containsSub keyword.toList (pyLower model.toList))

/-- Shallow embedding of `OllamaAnalyzer.get_vision_models`.  `listed` is
the outcome of `self.list_models()` (`Except.error` when it raises the
`ConnectionError`); the surrounding `try/except` turns any raise into an
empty list. -/
def get_vision_models (listed : Except String (List String)) : List String :=
  match listed with
  | Except.error _ => []
  | Except.ok all_models =>
    let vision_models := all_models.filter isVisionName
    if vision_models.isEmpty then all_models else vision_models

lemma append_ne_empty (a b : String) (h : a.length ≠ 0) : a ++ b ≠ "" := by
  intro hc
  have := congrArg String.length hc
  rw [String.length_append] at this
  simp at this
  omega

/-- C7: `analyze_image` checks existence and the case-insensitive
extension set `{.jpg .jpeg .png .webp .gif .bmp .tiff}` before any
network call; for either violation it makes no network call and returns
a failure result with a nonempty error message (the embedding is a total
function — no exception is raised). -/
theorem C7_analyze_image_guards :
    (∀ (ex : PathM → Bool) (chat : Except String ChatResponse) (p : PathM)
        (m : String),
      ex p = false ∨ is_supported_image p = false →
      (analyze_image ex chat p m).2 = false ∧
      (analyze_image ex chat p m).1.success = false ∧
      ∃ e, (analyze_image ex chat p m).1.error = some e ∧ e ≠ "")
    ∧ (∀ p, is_supported_image p = true ↔
        pyLowerStr (nameSuffix p.name) ∈ SUPPORTED_FORMATS)
    ∧ is_supported_image ⟨"", "photo.JPG"⟩ = true
    ∧ is_supported_image ⟨"", "photo.txt"⟩ = false := by
  refine ⟨?_, fun p => by simp [is_supported_image], by decide, by decide⟩
  intro ex chat p m h
  unfold analyze_image
  rcases h with h | h
  · rw [if_pos h]
    exact ⟨rfl, rfl, _, rfl, append_ne_empty _ _ (by decide)⟩
  · by_cases hex : ex p = false
    · rw [if_pos hex]
      exact ⟨rfl, rfl, _, rfl, append_ne_empty _ _ (by decide)⟩
    · rw [if_neg hex, if_pos h]
      exact ⟨rfl, rfl, _, rfl, append_ne_empty _ _ (by decide)⟩

/-- C7 witness: a missing file is reported as a failure result without a
network call. -/
theorem C7_analyze_image_guards_witness :
    (analyze_image (fun _ => false) (Except.error "down") photoTxt "llava").2
        = false
    ∧ (analyze_image (fun _ => false) (Except.error "down") photoTxt
        "llava").1.success = false
    ∧ ∃ e, (analyze_image (fun _ => false) (Except.error "down") photoTxt
        "llava").1.error = some e ∧ e ≠ "" :=
  C7_analyze_image_guards.1 (fun _ => false) (Except.error "down") photoTxt
    "llava" (Or.inl rfl)

/-- C10: `get_vision_models` never propagates a listing failure — a
raised `ConnectionError` yields the empty list (not the unfiltered list,
not an error); a successful listing yields the keyword-filtered list, or
the full list when no name matches. -/
theorem C10_vision_models :
    (∀ e, get_vision_models (Except.error e) = [])
    ∧ (∀ ms, ms.filter isVisionName ≠ [] →
        get_vision_models (Except.ok ms) = ms.filter isVisionName)
    ∧ (∀ ms, ms.filter isVisionName = [] →
        get_vision_models (Except.ok ms) = ms)
    ∧ get_vision_models (Except.ok ["llava:7b", "qwen2.5"]) = ["llava:7b"]
    ∧ get_vision_models (Except.ok ["qwen2.5", "mistral"])
        = ["qwen2.5", "mistral"] := by
  refine ⟨fun e => rfl, ?_, ?_, by rfl, by rfl⟩
  · intro ms h
    simp [get_vision_models, List.isEmpty_iff, h]
  · intro ms h
    simp [get_vision_models, List.isEmpty_iff, h]

/-- C10 witness: concrete instantiations of the filtered and fallback
cases of `C10_vision_models`. -/
theorem C10_vision_models_witness :
    get_vision_models (Except.ok ["llava:7b"]) = ["llava:7b"].filter isVisionName
    ∧ get_vision_models (Except.ok ["mistral"]) = ["mistral"] :=
  ⟨C10_vision_models.2.1 ["llava:7b"] (by decide),
   C10_vision_models.2.2.1 ["mistral"] (by decide)⟩

/-! ## Result persistence layer

The three operations of `ollama_client.py`.  A Python `ValueError` is
`SaveError.validation`, an `IOError` is `SaveError.io`, a
`FileNotFoundError` is `SaveError.notFound` — the three are distinct
constructors, so a validation failure is distinguishable from an I/O
failure.  A successful operation returns the path(s) it writes; a raised
error returns before any file is created or modified, so an `error`
outcome writes nothing. -/

inductive SaveError where
  | validation (msg : String)
  | io (msg : String)
  | notFound (msg : String)
deriving DecidableEq, Repr

/-- The Python message of each validator rejection (float formatting of
the average word length abbreviated away). -/
def vreasonMsg : VReason → String
  | .empty => "Response is empty"
  | .tooShort n => "Response too short (" ++ toString n ++ " chars, minimum 20)"
  | .tooLong n => "Response too long (" ++ toString n ++ " words, maximum 10000)"
  | .gibberishAvg => "Response appears to be gibberish"
  | .specialChars => "Response contains excessive special characters (possible gibberish)"
  | .repetition => "Response contains excessive repetition"

/-- Default output path of `save_result`:
`result.image_path.with_suffix(".txt")` when no path is supplied. -/
def resolve_txt_path (result : AnalysisResult) (output_path : Option PathM) :
    Except SaveError PathM :=
  match output_path with
  | some op => Except.ok op
  | none =>
    match result.image_path with
    | none => Except.error
        (SaveError.validation "Cannot determine output path: no image_path in result")
    | some ip => Except.ok (with_suffix ip ".txt")

/-- The `if not overwrite and output_path.exists()` collision handling
shared by `save_result` and `save_yaml_sidecar`; the `IOError` of
`_get_numbered_path` propagates. -/
def collide (ex : PathM → Bool) (output_path : PathM) (overwrite : Bool) :
    Except SaveError PathM :=
  if overwrite = false ∧ ex output_path = true then
    match get_numbered_path ex output_path with
    | Except.ok p => Except.ok p
    | Except.error m => Except.error (SaveError.io m)
  else Except.ok output_path

/-- Shallow embedding of `OllamaAnalyzer.save_result`: require a
successful result, validate the response, resolve the output path,
handle collisions, then write.  The returned path is the file written;
the write itself is abstracted as succeeding. -/
def save_result (ex : PathM → Bool) (result : AnalysisResult)
    (output_path : Option PathM) (overwrite : Bool) : Except SaveError PathM :=
  if result.success = false then
    Except.error (SaveError.validation "Cannot save a failed analysis result")
  else
    match validate_response result.response with
    | (false, reason) =>
      Except.error (SaveError.validation
        ("Response validation failed: " ++ ((reason.map vreasonMsg).getD "")))
    | (true, _) =>
      match resolve_txt_path result output_path with
      | Except.error e => Except.error e
      | Except.ok base =>
        match collide ex base overwrite with
        | Except.error e => Except.error e
        | Except.ok final => Except.ok final

/-- Default output path of `save_yaml_sidecar`:
`image_path.with_suffix(image_path.suffix + ".yml")`. -/
def resolve_yaml_path (result : AnalysisResult) (output_path : Option PathM) :
    Except SaveError PathM :=
  match output_path with
  | some op => Except.ok op
  | none =>
    match result.image_path with
    | none => Except.error
        (SaveError.validation "Cannot determine output path: no image_path in result")
    | some ip => Except.ok (with_suffix ip (nameSuffix ip.name ++ ".yml"))

/-- Shallow embedding of `OllamaAnalyzer.save_yaml_sidecar`; the guard
structure is identical to `save_result`, only the default path differs.
The sidecar's contents (`Title`, `Description`, `TakenAt`, details block)
are wall-clock dependent and are abstracted; the returned path is the
file written. -/
def save_yaml_sidecar (ex : PathM → Bool) (result : AnalysisResult)
    (output_path : Option PathM) (overwrite : Bool) : Except SaveError PathM :=
  if result.success = false then
    Except.error (SaveError.validation "Cannot save a failed analysis result")
  else
    match validate_response result.response with
    | (false, reason) =>
      Except.error (SaveError.validation
        ("Response validation failed: " ++ ((reason.map vreasonMsg).getD "")))
    | (true, _) =>
      match resolve_yaml_path result output_path with
      | Except.error e => Except.error e
      | Except.ok base =>
        match collide ex base overwrite with
        | Except.error e => Except.error e
        | Except.ok final => Except.ok final

/-- Shallow embedding of `OllamaAnalyzer.write_to_image_metadata`: require
a successful result with an image path and an existing file, then write
the description into the two EXIF descriptor fields of the image itself,
first copying the original to `{name}.bak` when `backup` is set and no
backup exists yet.  The returned list is the files written or modified
(backup first, then the image).  No validator check appears in the
source (lines 506–567), and none is modelled. -/
def write_to_image_metadata (ex : PathM → Bool) (result : AnalysisResult)
    (backup : Bool) : Except SaveError (List PathM) :=
  if result.success = false ∨ result.image_path = none then
    Except.error
      (SaveError.validation "Cannot write metadata: invalid result or no image path")
  else
    match result.image_path with
    | none => Except.error
        (SaveError.validation "Cannot write metadata: invalid result or no image path")
    | some ip =>
      if ex ip = false then
        Except.error (SaveError.notFound ("Image file not found: " ++ ip.name))
      else
        let backup_path := with_suffix ip (nameSuffix ip.name ++ ".bak")
        let backup_writes :=
          if backup = true ∧ ex backup_path = false then [backup_path] else []
        Except.ok (backup_writes ++ [ip])

/-- `photo.jpg` in some directory. -/
def photoJpg : PathM := ⟨"", "photo.jpg"⟩

/-- A successful result whose response text `"abcd"` fails the validator
(too short). -/
def shortOkResult : AnalysisResult :=
  { success := true, response := "abcd", model := "llava",
    image_path := some photoJpg }

/-- A failed result, as produced for an unreachable server. -/
def failedResult : AnalysisResult :=
  { success := false, response := "", model := "llava",
    error := some "Analysis failed: connection refused",
    image_path := some photoJpg }

/-- C2 counterexample: `write_to_image_metadata` performs no validator
check — for an existing `photo.jpg` and a successful result whose
response `"abcd"` the validator rejects, it still writes the backup and
the image metadata, refuting "the operation writes an artifact only when
… the response passes the validator check" for the embedded-metadata
operation. -/
theorem C2_metadata_no_validation_counterexample :
    (validate_response "abcd").1 = false
    ∧ write_to_image_metadata (fun p => p == photoJpg) shortOkResult true =
        Except.ok [⟨"", "photo.jpg.bak"⟩, photoJpg] := by
  constructor
  · decide
  · rfl

/-- A successful result that carries no source-image path. -/
def noPathResult : AnalysisResult :=
  { success := true, response := "a long enough description of a photo",
    model := "llava" }

/-- C2 (amended): the text save and the YAML sidecar write only when
`result.success = true` and the validator passes, and fail with a
`ValueError` (distinguishable from an `IOError`) otherwise — for a
failed result and equally for a successful result whose response fails
the validator; the embedded-metadata operation requires `success = true`
and a present image path (`ValueError` otherwise) and an existing file
(`FileNotFoundError` otherwise), but performs no validator check and
writes whenever those requirements hold; a result with
`success = false` never causes any of the three operations to create or
modify a file. -/
theorem C2_persistence_guards_amended :
    (∀ ex r out ow p, save_result ex r out ow = Except.ok p →
        r.success = true ∧ (validate_response r.response).1 = true)
    ∧ (∀ ex r out ow, r.success = false →
        save_result ex r out ow =
          Except.error (SaveError.validation "Cannot save a failed analysis result"))
    ∧ (∀ ex r out ow, r.success = true → (validate_response r.response).1 = false →
        save_result ex r out ow =
          Except.error (SaveError.validation ("Response validation failed: " ++
            (((validate_response r.response).2).map vreasonMsg).getD "")))
    ∧ (∀ ex r out ow p, save_yaml_sidecar ex r out ow = Except.ok p →
        r.success = true ∧ (validate_response r.response).1 = true)
    ∧ (∀ ex r out ow, r.success = false →
        save_yaml_sidecar ex r out ow =
          Except.error (SaveError.validation "Cannot save a failed analysis result"))
    ∧ (∀ ex r out ow, r.success = true → (validate_response r.response).1 = false →
        save_yaml_sidecar ex r out ow =
          Except.error (SaveError.validation ("Response validation failed: " ++
            (((validate_response r.response).2).map vreasonMsg).getD "")))
    ∧ (∀ ex r b, r.success = false →
        write_to_image_metadata ex r b =
          Except.error (SaveError.validation
            "Cannot write metadata: invalid result or no image path"))
    ∧ (∀ ex r b, r.image_path = none →
        write_to_image_metadata ex r b =
          Except.error (SaveError.validation
            "Cannot write metadata: invalid result or no image path"))
    ∧ (∀ ex r b w, write_to_image_metadata ex r b = Except.ok w →
        r.success = true ∧ ∃ ip, r.image_path = some ip ∧ ex ip = true)
    ∧ (∀ ex r b ip, r.success = true → r.image_path = some ip → ex ip = false →
        write_to_image_metadata ex r b =
          Except.error (SaveError.notFound ("Image file not found: " ++ ip.name)))
    ∧ (∀ ex r b ip, r.success = true → r.image_path = some ip → ex ip = true →
        ∃ w, write_to_image_metadata ex r b = Except.ok w)
    ∧ (∀ m1 m2, SaveError.validation m1 ≠ SaveError.io m2)
    ∧ (∀ m1 m2, SaveError.validation m1 ≠ SaveError.notFound m2) := by
  refine ⟨?_, ?_, ?_, ?_, ?_, ?_, ?_, ?_, ?_, ?_, ?_, ?_, ?_⟩
  · intro ex r out ow p h
    unfold save_result at h
    by_cases hs : r.success = false
    · rw [if_pos hs] at h; simp at h
    · rw [if_neg hs] at h
      refine ⟨by simpa using hs, ?_⟩
      rcases hv : validate_response r.response with ⟨b, reason⟩
      rw [hv] at h
      cases b
      · simp at h
      · rfl
  · intro ex r out ow hs
    unfold save_result
    rw [if_pos hs]
  · intro ex r out ow hs hv
    unfold save_result
    rw [if_neg (by simp [hs])]
    rcases hvp : validate_response r.response with ⟨b, reason⟩
    have hb : b = false := by
      have := hv
      rw [hvp] at this
      exact this
    subst hb
    simp [hvp]
  · intro ex r out ow p h
    unfold save_yaml_sidecar at h
    by_cases hs : r.success = false
    · rw [if_pos hs] at h; simp at h
    · rw [if_neg hs] at h
      refine ⟨by simpa using hs, ?_⟩
      rcases hv : validate_response r.response with ⟨b, reason⟩
      rw [hv] at h
      cases b
      · simp at h
      · rfl
  · intro ex r out ow hs
    unfold save_yaml_sidecar
    rw [if_pos hs]
  · intro ex r out ow hs hv
    unfold save_yaml_sidecar
    rw [if_neg (by simp [hs])]
    rcases hvp : validate_response r.response with ⟨b, reason⟩
    have hb : b = false := by
      have := hv
      rw [hvp] at this
      exact this
    subst hb
    simp [hvp]
  · intro ex r b hs
    unfold write_to_image_metadata
    rw [if_pos (Or.inl hs)]
  · intro ex r b hip
    unfold write_to_image_metadata
    rw [if_pos (Or.inr hip)]
  · intro ex r b w h
    unfold write_to_image_metadata at h
    by_cases hg : r.success = false ∨ r.image_path = none
    · rw [if_pos hg] at h; simp at h
    · rw [if_neg hg] at h
      push_neg at hg
      rcases hp : r.image_path with _ | ip
      · exact absurd hp hg.2
      · rw [hp] at h
        dsimp only at h
        by_cases hex : ex ip = false
        · rw [if_pos hex] at h; simp at h
        · exact ⟨by simpa using hg.1, ip, rfl, by simpa using hex⟩
  · intro ex r b ip hs hip hex
    unfold write_to_image_metadata
    rw [if_neg (by simp [hs, hip])]
    rw [hip]
    dsimp only
    rw [if_pos hex]
  · intro ex r b ip hs hip hex
    unfold write_to_image_metadata
    rw [if_neg (by simp [hs, hip])]
    rw [hip]
    dsimp only
    rw [if_neg (by simp [hex])]
    exact ⟨_, rfl⟩
  · intro m1 m2 h
    cases h
  · intro m1 m2 h
    cases h

/-- C2 witness: a failed result is refused by the text save with the
failed-result `ValueError`; a successful result whose response fails the
validator is refused by the text save with the validation `ValueError`;
a result without an image path is refused by the metadata write with its
`ValueError`; a missing image file yields the `FileNotFoundError`; and
the metadata write succeeds on a concrete validator-failing but
successful result. -/
theorem C2_persistence_guards_amended_witness :
    save_result (fun _ => false) failedResult none true =
      Except.error (SaveError.validation "Cannot save a failed analysis result")
    ∧ save_result (fun _ => false) shortOkResult none true =
        Except.error (SaveError.validation ("Response validation failed: " ++
          (((validate_response shortOkResult.response).2).map vreasonMsg).getD ""))
    ∧ write_to_image_metadata (fun _ => true) noPathResult true =
        Except.error (SaveError.validation
          "Cannot write metadata: invalid result or no image path")
    ∧ write_to_image_metadata (fun _ => false) shortOkResult true =
        Except.error (SaveError.notFound ("Image file not found: " ++ photoJpg.name))
    ∧ ∃ w, write_to_image_metadata (fun p => p == photoJpg) shortOkResult true =
        Except.ok w :=
  ⟨C2_persistence_guards_amended.2.1 (fun _ => false) failedResult none true rfl,
   C2_persistence_guards_amended.2.2.1 (fun _ => false) shortOkResult none true
     rfl (by decide),
   C2_persistence_guards_amended.2.2.2.2.2.2.2.1 (fun _ => true) noPathResult
     true rfl,
   C2_persistence_guards_amended.2.2.2.2.2.2.2.2.2.1 (fun _ => false)
     shortOkResult true photoJpg rfl rfl rfl,
   C2_persistence_guards_amended.2.2.2.2.2.2.2.2.2.2.1 (fun p => p == photoJpg)
     shortOkResult true photoJpg rfl rfl rfl⟩

/-! ## Batch orchestrator — `BatchAnalysisWorker` (`gui/batch_worker.py`)

The inference call made for one item is summarised by an `Attempt`: the
`AnalysisResult` it returned, or the exception it raised.  An item's
behaviour is a stream `Nat → Attempt` giving the outcome of its `n`-th
invocation of `analyzer.analyze_image` (the worker consumes at most
three).  Qt signals become an ordered list of `BEvent`s. -/

inductive Attempt where
  | ret (r : AnalysisResult)
  | exn (e : String)
deriving DecidableEq, Repr

inductive BEvent where
  | startedEv
  | itemStarted (current total : Nat) (filename : String)
  | progressPct (pct : Nat)
  | itemRetrying (filename error_message : String)
  | itemFinished (result : AnalysisResult)
  | batchFinished (processed successful : Nat)
  | batchErrorEv (msg : String)
deriving DecidableEq, Repr

/-- The terminal `AnalysisResult` built at `batch_worker.py:126-132` when
both the caught exception `e` and the retry's exception `retry_error`
occurred: `error = f"Failed twice: {str(e)}; {str(retry_error)}"`. -/
def failedTwice (model : String) (image_path : PathM) (e retry_error : String) :
    AnalysisResult :=
  { success := false, response := "", model := model,
    error := some ("Failed twice: " ++ e ++ "; " ++ retry_error),
    image_path := some image_path }

/-- The per-item body of `BatchAnalysisWorker.run` (lines 75–133): events
emitted for the item, number of `analyze_image` invocations, and whether
the item counts as successful.  Every path increments `processed` by one,
so that is left implicit.  Note the interleaving of the two `try` blocks:
a *returned* failure triggers the in-line retry at line 87; if that retry
*raises*, the outer `except` at line 105 catches it, emits a second
`item_retry`, and invokes `analyze_image` a third time at line 112. -/
def processItem (att : Nat → Attempt) (model : String) (image_path : PathM) :
    List BEvent × Nat × Bool :=
  match att 0 with
  | .ret r0 =>
    if r0.success then ([.itemFinished r0], 1, true)
    else
      match att 1 with
      | .ret r1 =>
        ([.itemRetrying image_path.name (r0.error.getD "Unknown error"),
          .itemFinished r1], 2, r1.success)
      | .exn e1 =>
        match att 2 with
        | .ret r2 =>
          ([.itemRetrying image_path.name (r0.error.getD "Unknown error"),
            .itemRetrying image_path.name e1, .itemFinished r2], 3, r2.success)
        | .exn e2 =>
          ([.itemRetrying image_path.name (r0.error.getD "Unknown error"),
            .itemRetrying image_path.name e1,
            .itemFinished (failedTwice model image_path e1 e2)], 3, false)
  | .exn e0 =>
    match att 1 with
    | .ret r1 =>
      ([.itemRetrying image_path.name e0, .itemFinished r1], 2, r1.success)
    | .exn e1 =>
      ([.itemRetrying image_path.name e0,
        .itemFinished (failedTwice model image_path e0 e1)], 2, false)

lemma containsSub_iff (n h : List Char) : containsSub n h = true ↔ n <:+: h := by
  induction h with
  | nil => simp [containsSub, List.isEmpty_iff]
  | cons c t ih =>
    simp [containsSub, List.infix_cons_iff, ih, List.isPrefixOf_iff_prefix]

def isFinishedEv : BEvent → Bool
  | .itemFinished _ => true
  | _ => false

/-- A business-failure result carrying error text `e`, as
`analyze_image` returns one. -/
def failR (e : String) : AnalysisResult :=
  { success := false, response := "", model := "llava", error := some e,
    image_path := some photoJpg }

/-- C1 counterexample: when both attempts *return* business-failure
results (errors `"E1"` then `"E2"`), the terminal result is simply the
second attempt's result — its error text is `"E2"`, which does not
reference the first failure cause `"E1"`.  The claim's "error text
references both underlying failure causes" only holds on the
double-exception path. -/
theorem C1_second_failure_error_counterexample :
    processItem
        (fun n => if n = 0 then Attempt.ret (failR "E1") else Attempt.ret (failR "E2"))
        "llava" photoJpg
      = ([BEvent.itemRetrying "photo.jpg" "E1", BEvent.itemFinished (failR "E2")],
          2, false)
    ∧ (failR "E2").error = some "E2"
    ∧ containsSub "E1".toList "E2".toList = false := by
  refine ⟨by rfl, rfl, by decide⟩

/-- C1 (amended): every item emits exactly one terminal
`ItemFinished` event.  If the first attempt fails, `ItemRetrying` is
emitted and the client invoked again.  When the first attempt *raised*,
exactly one more invocation occurs, and if it also raises, the terminal
result's `"Failed twice: …"` error references both causes.  When the
first attempt *returned* a failure result, a returned second failure
makes that second result terminal (its error text references only the
second cause), while a raised second attempt triggers a second
`ItemRetrying` and a *third* invocation, whose outcome is terminal
(`"Failed twice"` referencing the second and third causes if it also
raises). -/
theorem C1_retry_policy_amended :
    ∀ (att : Nat → Attempt) (m : String) (p : PathM),
      ((processItem att m p).1.countP isFinishedEv = 1)
      ∧ (∀ r0, att 0 = .ret r0 → r0.success = true →
          processItem att m p = ([.itemFinished r0], 1, true))
      ∧ (∀ e0 e1, att 0 = .exn e0 → att 1 = .exn e1 →
          processItem att m p =
            ([.itemRetrying p.name e0,
              .itemFinished (failedTwice m p e0 e1)], 2, false))
      ∧ (∀ e0 r1, att 0 = .exn e0 → att 1 = .ret r1 →
          processItem att m p =
            ([.itemRetrying p.name e0, .itemFinished r1], 2, r1.success))
      ∧ (∀ r0 r1, att 0 = .ret r0 → r0.success = false → att 1 = .ret r1 →
          processItem att m p =
            ([.itemRetrying p.name (r0.error.getD "Unknown error"),
              .itemFinished r1], 2, r1.success))
      ∧ (∀ r0 e1 r2, att 0 = .ret r0 → r0.success = false → att 1 = .exn e1 →
          att 2 = .ret r2 →
          processItem att m p =
            ([.itemRetrying p.name (r0.error.getD "Unknown error"),
              .itemRetrying p.name e1, .itemFinished r2], 3, r2.success))
      ∧ (∀ r0 e1 e2, att 0 = .ret r0 → r0.success = false → att 1 = .exn e1 →
          att 2 = .exn e2 →
          processItem att m p =
            ([.itemRetrying p.name (r0.error.getD "Unknown error"),
              .itemRetrying p.name e1,
              .itemFinished (failedTwice m p e1 e2)], 3, false))
      ∧ (∀ e1 e2, containsSub e1.toList
            ("Failed twice: " ++ e1 ++ "; " ++ e2).toList = true
          ∧ containsSub e2.toList
            ("Failed twice: " ++ e1 ++ "; " ++ e2).toList = true) := by
  intro att m p
  refine ⟨?_, ?_, ?_, ?_, ?_, ?_, ?_, ?_⟩
  · unfold processItem
    rcases h0 : att 0 with r0 | e0
    · by_cases hs : r0.success
      · simp [hs, isFinishedEv, List.countP_cons]
      · rcases h1 : att 1 with r1 | e1
        · simp [hs, isFinishedEv, List.countP_cons]
        · rcases h2 : att 2 with r2 | e2 <;>
            simp [hs, isFinishedEv, List.countP_cons]
    · rcases h1 : att 1 with r1 | e1 <;>
        simp [isFinishedEv, List.countP_cons]
  · intro r0 h0 hs
    unfold processItem
    rw [h0]
    simp [hs]
  · intro e0 e1 h0 h1
    unfold processItem
    rw [h0, h1]
  · intro e0 r1 h0 h1
    unfold processItem
    rw [h0, h1]
  · intro r0 r1 h0 hs h1
    unfold processItem
    rw [h0, h1]
    simp [hs]
  · intro r0 e1 r2 h0 hs h1 h2
    unfold processItem
    rw [h0, h1, h2]
    simp [hs]
  · intro r0 e1 e2 h0 hs h1 h2
    unfold processItem
    rw [h0, h1, h2]
    simp [hs]
  · intro e1 e2
    constructor
    · rw [containsSub_iff]
      refine ⟨"Failed twice: ".toList, ("; " ++ e2).toList, ?_⟩
      simp [String.toList, String.data_append]
    · rw [containsSub_iff]
      refine ⟨("Failed twice: " ++ e1 ++ "; ").toList, [], ?_⟩
      simp [String.toList, String.data_append]

/-- C1 witness: the double-exception case at concrete attempts raising
`"A"` then `"B"`, via `C1_retry_policy_amended`. -/
theorem C1_retry_policy_amended_witness :
    processItem (fun n => if n = 0 then Attempt.exn "A" else Attempt.exn "B")
        "llava" photoJpg
      = ([BEvent.itemRetrying "photo.jpg" "A",
          BEvent.itemFinished (failedTwice "llava" photoJpg "A" "B")], 2, false) :=
  (C1_retry_policy_amended
    (fun n => if n = 0 then Attempt.exn "A" else Attempt.exn "B")
    "llava" photoJpg).2.2.1 "A" "B" rfl rfl

/-! ## The batch loop of `BatchAnalysisWorker.run`

`runItems` is the `for index, image_path in enumerate(...)` loop.
`stopAt i` is the value of the shared `_should_stop` flag as sampled at
the top of iteration `i` (the only place the source reads it);
`faultAt i` injects an exception escaping the per-item handling at the
`item_started.emit` of iteration `i` — the only statements of the loop
body outside the per-item `try` (lines 69–73) — which the outer `except`
at line 143 turns into `error.emit` followed by
`finished.emit(total, successful)`.  The result of `runItems` is
`(events, processed, successful, faulted)`. -/

structure BatchItem where
  path : PathM
  attempts : Nat → Attempt

def runItems (m : String) (stopAt faultAt : Nat → Bool) :
    List BatchItem → Nat → Nat → Nat → Nat → List BEvent × Nat × Nat × Bool
  | [], _, _, processed, successful => ([], processed, successful, false)
  | it :: rest, idx, total, processed, successful =>
    if stopAt idx then ([], processed, successful, false)
    else if faultAt idx then ([], processed, successful, true)
    else
      (BEvent.itemStarted (idx + 1) total it.path.name ::
        BEvent.progressPct ((idx + 1) * 100 / total) ::
        (processItem it.attempts m it.path).1 ++
        (runItems m stopAt faultAt rest (idx + 1) total (processed + 1)
          (successful + (if (processItem it.attempts m it.path).2.2 then 1 else 0))).1,
       (runItems m stopAt faultAt rest (idx + 1) total (processed + 1)
          (successful + (if (processItem it.attempts m it.path).2.2 then 1 else 0))).2)

/-- All events of one `BatchAnalysisWorker.run` call: `started`, the loop
events, then — on the fault path — `error` and `finished(total,
successful)`, or otherwise `finished(processed, successful)`. -/
def run (m : String) (stopAt faultAt : Nat → Bool) (items : List BatchItem) :
    List BEvent :=
  BEvent.startedEv ::
    (runItems m stopAt faultAt items 0 items.length 0 0).1 ++
    (if (runItems m stopAt faultAt items 0 items.length 0 0).2.2.2 then
      [BEvent.batchErrorEv "Batch analysis error",
       BEvent.batchFinished items.length
         (runItems m stopAt faultAt items 0 items.length 0 0).2.2.1]
     else
      [BEvent.batchFinished
        (runItems m stopAt faultAt items 0 items.length 0 0).2.1
        (runItems m stopAt faultAt items 0 items.length 0 0).2.2.1])

def isItemStartedEv : BEvent → Bool
  | .itemStarted _ _ _ => true
  | _ => false

def isBatchFinishedEv : BEvent → Bool
  | .batchFinished _ _ => true
  | _ => false

lemma processItem_counts (att : Nat → Attempt) (m : String) (p : PathM) :
    (processItem att m p).1.countP isFinishedEv = 1
    ∧ (processItem att m p).1.countP isItemStartedEv = 0
    ∧ (processItem att m p).1.countP isBatchFinishedEv = 0 := by
  unfold processItem
  rcases h0 : att 0 with r0 | e0
  · by_cases hs : r0.success
    · simp [hs, isFinishedEv, isItemStartedEv, isBatchFinishedEv, List.countP_cons]
    · rcases h1 : att 1 with r1 | e1
      · simp [hs, isFinishedEv, isItemStartedEv, isBatchFinishedEv, List.countP_cons]
      · rcases h2 : att 2 with r2 | e2 <;>
          simp [hs, isFinishedEv, isItemStartedEv, isBatchFinishedEv, List.countP_cons]
  · rcases h1 : att 1 with r1 | e1 <;>
      simp [isFinishedEv, isItemStartedEv, isBatchFinishedEv, List.countP_cons]

lemma runItems_bounds (m : String) (stopAt faultAt : Nat → Bool) :
    ∀ (items : List BatchItem) (idx total processed successful : Nat),
      successful ≤ processed →
      (runItems m stopAt faultAt items idx total processed successful).2.2.1 ≤
        (runItems m stopAt faultAt items idx total processed successful).2.1
      ∧ (runItems m stopAt faultAt items idx total processed successful).2.1 ≤
        processed + items.length := by
  intro items
  induction items with
  | nil => intro idx total processed successful h; simpa [runItems] using h
  | cons it rest ih =>
    intro idx total processed successful h
    unfold runItems
    by_cases hstop : stopAt idx
    · simp [hstop, h]
    · by_cases hfault : faultAt idx
      · simp [hstop, hfault, h]
      · simp only [hstop, hfault, if_false, Bool.false_eq_true]
        have := ih (idx + 1) total (processed + 1)
          (successful + (if (processItem it.attempts m it.path).2.2 then 1 else 0))
          (by split <;> omega)
        refine ⟨this.1, ?_⟩
        have h2 := this.2
        simp only [List.length_cons]
        omega

lemma runItems_no_batchFinished (m : String) (stopAt faultAt : Nat → Bool) :
    ∀ (items : List BatchItem) (idx total processed successful : Nat),
      (runItems m stopAt faultAt items idx total processed successful).1.countP
        isBatchFinishedEv = 0 := by
  intro items
  induction items with
  | nil => intro idx total processed successful; simp [runItems]
  | cons it rest ih =>
    intro idx total processed successful
    unfold runItems
    by_cases hstop : stopAt idx
    · simp [hstop]
    · by_cases hfault : faultAt idx
      · simp [hstop, hfault]
      · simp only [hstop, hfault, if_false, Bool.false_eq_true]
        simp [List.countP_cons, List.countP_append, isBatchFinishedEv,
          (processItem_counts it.attempts m it.path).2.2, ih]

lemma runItems_stopped (m : String) (stopAt : Nat → Bool) :
    ∀ (k : Nat) (items : List BatchItem) (idx total processed successful : Nat),
      k < items.length →
      (∀ i, i < k → stopAt (idx + i) = false) →
      stopAt (idx + k) = true →
      (runItems m stopAt (fun _ => false) items idx total processed successful).2.1
          = processed + k
      ∧ (runItems m stopAt (fun _ => false) items idx total processed successful).2.2.2
          = false
      ∧ (runItems m stopAt (fun _ => false) items idx total processed
          successful).1.countP isItemStartedEv = k
      ∧ (runItems m stopAt (fun _ => false) items idx total processed
          successful).1.countP isFinishedEv = k
      ∧ (∀ c t n, BEvent.itemStarted c t n ∈
          (runItems m stopAt (fun _ => false) items idx total processed
            successful).1 → c ≤ idx + k) := by
  intro k
  induction k with
  | zero =>
    intro items idx total processed successful hk hbefore hstop
    match items with
    | [] => simp at hk
    | it :: rest =>
      rw [Nat.add_zero] at hstop
      unfold runItems
      simp [hstop]
  | succ k ih =>
    intro items idx total processed successful hk hbefore hstop
    match items with
    | [] => simp at hk
    | it :: rest =>
      have h0 : stopAt idx = false := by
        have := hbefore 0 (by omega)
        simpa using this
      unfold runItems
      simp only [h0, Bool.false_eq_true, if_false]
      have hrest := ih rest (idx + 1) total (processed + 1)
        (successful + (if (processItem it.attempts m it.path).2.2 then 1 else 0))
        (by simpa using Nat.lt_of_succ_lt_succ (by simpa [List.length_cons] using hk))
        (fun i hi => by
          have := hbefore (i + 1) (by omega)
          simpa [Nat.add_assoc, Nat.add_comm, Nat.add_left_comm] using this)
        (by
          have : idx + 1 + k = idx + (k + 1) := by omega
          rw [this]; exact hstop)
      have hpc := processItem_counts it.attempts m it.path
      refine ⟨?_, ?_, ?_, ?_, ?_⟩
      · rw [hrest.1]; omega
      · exact hrest.2.1
      · simp [List.countP_cons, List.countP_append, isItemStartedEv]
        have hz : (processItem it.attempts m it.path).1.countP isItemStartedEv = 0 :=
          hpc.2.1
        rw [hz, hrest.2.2.1]
        omega
      · simp [List.countP_cons, List.countP_append, isFinishedEv]
        rw [hpc.1, hrest.2.2.2.1]
        omega
      · intro c t n hmem
        have hz := hpc.2.1
        rw [List.countP_eq_zero] at hz
        simp at hmem
        rcases hmem with ⟨h1, h2, h3⟩ | h | h
        · omega
        · have := hz _ h
          simp [isItemStartedEv] at this
        · have := hrest.2.2.2.2 c t n h
          omega

/-- A successful inference outcome. -/
def okResult : AnalysisResult :=
  { success := true, response := "a long enough description of a photo",
    model := "llava", image_path := some photoJpg }

/-- An item whose every attempt succeeds. -/
def okItem : BatchItem := ⟨photoJpg, fun _ => Attempt.ret okResult⟩

/-- C3: cancellation is observed only at the top of the per-item loop.
If the stop flag is first observed set at the top of iteration `k`
(`k < N`), the run ends with `processed = k` and no batch-level fault;
exactly `k` `ItemStarted` and `k` `ItemFinished` events are emitted (the
results of the `k` completed items are kept), and no `ItemStarted` event
carries a current index beyond `k` — item `k+1` is never started.  Calls
are atomic in the model: an in-flight call is never interrupted by
construction. -/
theorem C3_cancellation_loop_top :
    ∀ (m : String) (stopAt : Nat → Bool) (items : List BatchItem) (k : Nat),
      k < items.length →
      (∀ i, i < k → stopAt i = false) →
      stopAt k = true →
      (runItems m stopAt (fun _ => false) items 0 items.length 0 0).2.1 = k
      ∧ (runItems m stopAt (fun _ => false) items 0 items.length 0 0).2.2.2 = false
      ∧ (runItems m stopAt (fun _ => false) items 0 items.length 0
          0).1.countP isItemStartedEv = k
      ∧ (runItems m stopAt (fun _ => false) items 0 items.length 0
          0).1.countP isFinishedEv = k
      ∧ (∀ c t n, BEvent.itemStarted c t n ∈
          (runItems m stopAt (fun _ => false) items 0 items.length 0 0).1 →
          c ≤ k) := by
  intro m stopAt items k hk hb hs
  have h := runItems_stopped m stopAt k items 0 items.length 0 0 hk
    (fun i hi => by simpa using hb i hi) (by simpa using hs)
  exact ⟨by simpa using h.1, h.2.1, h.2.2.1, h.2.2.2.1,
    fun c t n hm => by simpa using h.2.2.2.2 c t n hm⟩

/-- C3 witness: a two-item batch whose stop flag is set after the first
item completes ends with `processed = 1` and no fault. -/
theorem C3_cancellation_loop_top_witness :
    (runItems "llava" (fun i => decide (1 ≤ i)) (fun _ => false)
        [okItem, okItem] 0 [okItem, okItem].length 0 0).2.1 = 1
    ∧ (runItems "llava" (fun i => decide (1 ≤ i)) (fun _ => false)
        [okItem, okItem] 0 [okItem, okItem].length 0 0).2.2.2 = false :=
  ⟨(C3_cancellation_loop_top "llava" (fun i => decide (1 ≤ i)) [okItem, okItem]
      1 (by decide) (fun i hi => by simp; omega) (by decide)).1,
   (C3_cancellation_loop_top "llava" (fun i => decide (1 ≤ i)) [okItem, okItem]
      1 (by decide) (fun i hi => by simp; omega) (by decide)).2.1⟩

/-- C4 counterexample: with two items, the first succeeding and a
batch-level fault at the start of the second, `processed = 1` but the
terminal `BatchFinished` carries `(total, successful) = (2, 1)`, not
`(processed, successful) = (1, 1)` — refuting "exactly one terminal
BatchFinished event carrying (processed_count, success_count)" on the
fault path. -/
theorem C4_fault_payload_counterexample :
    (runItems "llava" (fun _ => false) (fun i => i == 1) [okItem, okItem]
        0 2 0 0).2.1 = 1
    ∧ (run "llava" (fun _ => false) (fun i => i == 1) [okItem, okItem]).getLast? =
        some (BEvent.batchFinished 2 1)
    ∧ BEvent.batchFinished 2 1 ≠ BEvent.batchFinished 1 1 := by
  refine ⟨by rfl, by rfl, by decide⟩

/-- C4 (amended): for every batch, `success_count ≤ processed_count ≤ N`
(the bound is preserved from arbitrary in-bounds intermediate states, so
it holds at all times), and exactly one terminal `BatchFinished` event is
emitted, as the last event of the run.  On natural completion and on
cancellation it carries `(processed_count, success_count)`; on a
batch-level fault it instead carries `(total_count, success_count)`. -/
theorem C4_counters_terminal_amended :
    ∀ (m : String) (stopAt faultAt : Nat → Bool) (items : List BatchItem),
      (runItems m stopAt faultAt items 0 items.length 0 0).2.2.1 ≤
        (runItems m stopAt faultAt items 0 items.length 0 0).2.1
      ∧ (runItems m stopAt faultAt items 0 items.length 0 0).2.1 ≤ items.length
      ∧ (run m stopAt faultAt items).countP isBatchFinishedEv = 1
      ∧ ((runItems m stopAt faultAt items 0 items.length 0 0).2.2.2 = false →
          (run m stopAt faultAt items).getLast? =
            some (BEvent.batchFinished
              (runItems m stopAt faultAt items 0 items.length 0 0).2.1
              (runItems m stopAt faultAt items 0 items.length 0 0).2.2.1))
      ∧ ((runItems m stopAt faultAt items 0 items.length 0 0).2.2.2 = true →
          (run m stopAt faultAt items).getLast? =
            some (BEvent.batchFinished items.length
              (runItems m stopAt faultAt items 0 items.length 0 0).2.2.1)) := by
  intro m stopAt faultAt items
  have hb := runItems_bounds m stopAt faultAt items 0 items.length 0 0 (Nat.le_refl 0)
  refine ⟨hb.1, by simpa using hb.2, ?_, ?_, ?_⟩
  · unfold run
    by_cases hf : (runItems m stopAt faultAt items 0 items.length 0 0).2.2.2
    · simp [hf, List.countP_cons, List.countP_append, isBatchFinishedEv,
        runItems_no_batchFinished]
    · simp [hf, List.countP_cons, List.countP_append, isBatchFinishedEv,
        runItems_no_batchFinished]
  · intro hf
    unfold run
    rw [hf]
    simp [List.getLast?_cons, List.getLast?_append]
  · intro hf
    unfold run
    rw [hf]
    simp [List.getLast?_cons, List.getLast?_append]

/-- C4 witness: the empty batch completes without fault and its last
event is `BatchFinished(processed, successful)`. -/
theorem C4_counters_terminal_amended_witness :
    (run "llava" (fun _ => false) (fun _ => false) ([] : List BatchItem)).getLast? =
      some (BEvent.batchFinished
        (runItems "llava" (fun _ => false) (fun _ => false) ([] : List BatchItem)
          0 ([] : List BatchItem).length 0 0).2.1
        (runItems "llava" (fun _ => false) (fun _ => false) ([] : List BatchItem)
          0 ([] : List BatchItem).length 0 0).2.2.1) :=
  (C4_counters_terminal_amended "llava" (fun _ => false) (fun _ => false)
    ([] : List BatchItem)).2.2.2.1 rfl

/-! ## Metrics aggregator — `MainWindow` batch averages

The running sums reset in `_on_batch_started` and updated in
`_on_batch_item_finished` (lines 1095–1102): the whole block is guarded
by Python's `if result.eval_count:` — truthiness, i.e. present *and*
nonzero — and each sum adds `<counter> or 0`, i.e. zero for a missing
counter.  `avg_tokens_per_sec` is `_update_batch_average_metrics` (lines
804–816): it returns early when no item was counted, and shows
`batch_total_tokens / (batch_total_eval_duration / 1e9)` when the
duration sum is positive.  Float arithmetic is carried out exactly on
the rationals it denotes. -/

structure BatchMetrics where
  batch_metrics_count : Nat
  batch_total_tokens : Nat
  batch_total_prompt_tokens : Nat
  batch_total_duration : Nat
  batch_total_eval_duration : Nat
  batch_total_load_duration : Nat
deriving DecidableEq, Repr

def initMetrics : BatchMetrics := ⟨0, 0, 0, 0, 0, 0⟩

/-- Python truthiness of an `Optional[int]`: `None` and `0` are falsy. -/
def pyTruthy : Option Nat → Bool
  | none => false
  | some n => n != 0

/-- The `if result.eval_count:` block of `_on_batch_item_finished`. -/
def track_batch_item (m : BatchMetrics) (result : AnalysisResult) : BatchMetrics :=
  if pyTruthy result.eval_count then
    { batch_metrics_count := m.batch_metrics_count + 1,
      batch_total_tokens := m.batch_total_tokens + result.eval_count.getD 0,
      batch_total_prompt_tokens :=
        m.batch_total_prompt_tokens + result.prompt_eval_count.getD 0,
      batch_total_duration := m.batch_total_duration + result.total_duration.getD 0,
      batch_total_eval_duration :=
        m.batch_total_eval_duration + result.eval_duration.getD 0,
      batch_total_load_duration :=
        m.batch_total_load_duration + result.load_duration.getD 0 }
  else m

/-- The metrics after a batch of results. -/
def trackAll (results : List AnalysisResult) : BatchMetrics :=
  results.foldl track_batch_item initMetrics

/-- The displayed average throughput of
`_update_batch_average_metrics`. -/
def avg_tokens_per_sec (m : BatchMetrics) : Option ℚ :=
  if m.batch_metrics_count ≠ 0 ∧ m.batch_total_eval_duration > 0 then
    some ((m.batch_total_tokens : ℚ) /
      ((m.batch_total_eval_duration : ℚ) / 1000000000))
  else none

/-- The displayed average prompt-token count of
`_update_batch_average_metrics`. -/
def avg_prompt_tokens (m : BatchMetrics) : Option ℚ :=
  if m.batch_metrics_count ≠ 0 ∧ m.batch_total_prompt_tokens > 0 then
    some ((m.batch_total_prompt_tokens : ℚ) / (m.batch_metrics_count : ℚ))
  else none

/-- The claim's exclusion semantics for the throughput average, stated
from the spec's words: items without the relevant counters are excluded
from both numerator and denominator, never zero-filled.  For comparison
with `avg_tokens_per_sec ∘ trackAll`. -/
def specAvgThroughput (results : List AnalysisResult) : Option ℚ :=
  let included := results.filter
    (fun r => pyTruthy r.eval_count && pyTruthy r.eval_duration)
  let toks := (included.map (fun r => r.eval_count.getD 0)).sum
  let dur := (included.map (fun r => r.eval_duration.getD 0)).sum
  if dur > 0 then some ((toks : ℚ) / ((dur : ℚ) / 1000000000)) else none

/-- The claim's exclusion semantics for the prompt-token average, stated
from the spec's words, for comparison with
`avg_prompt_tokens ∘ trackAll`. -/
def specAvgPromptTokens (results : List AnalysisResult) : Option ℚ :=
  let included := results.filter (fun r => pyTruthy r.prompt_eval_count)
  if included.length ≠ 0 then
    some (((included.map (fun r => r.prompt_eval_count.getD 0)).sum : ℚ) /
      (included.length : ℚ))
  else none

/-- An item that reported `eval_count` but neither `eval_duration` nor
`prompt_eval_count`. -/
def rNoDur : AnalysisResult :=
  { success := true, response := "a long enough description of a photo",
    model := "llava", eval_count := some 100 }

/-- An item that reported all three counters. -/
def rFull : AnalysisResult :=
  { success := true, response := "a long enough description of a photo",
    model := "llava", eval_count := some 100,
    eval_duration := some 2000000000, prompt_eval_count := some 50 }

/-- C8 counterexample: `rNoDur` reports tokens but no duration and no
prompt count; the aggregator still counts it — its tokens enter the
throughput numerator with no duration in the denominator (100 tok/s
instead of 50 under exclusion semantics), and its missing prompt count is
zero-filled into the prompt-token average (25 instead of 50) — refuting
"excluded from both numerator and denominator of every average (never
zero-filled)". -/
theorem C8_zero_fill_counterexample :
    avg_tokens_per_sec (trackAll [rNoDur, rFull]) = some 100
    ∧ specAvgThroughput [rNoDur, rFull] = some 50
    ∧ avg_prompt_tokens (trackAll [rNoDur, rFull]) = some 25
    ∧ specAvgPromptTokens [rNoDur, rFull] = some 50
    ∧ (100 : ℚ) ≠ 50 ∧ (25 : ℚ) ≠ 50 := by
  refine ⟨?_, ?_, ?_, ?_, by norm_num, by norm_num⟩
  · norm_num [avg_tokens_per_sec, trackAll, track_batch_item, initMetrics,
      pyTruthy, rNoDur, rFull]
  · norm_num [specAvgThroughput, pyTruthy, rNoDur, rFull]
  · norm_num [avg_prompt_tokens, trackAll, track_batch_item, initMetrics,
      pyTruthy, rNoDur, rFull]
  · norm_num [specAvgPromptTokens, pyTruthy, rNoDur, rFull]

lemma trackAll_fold :
    ∀ (rs : List AnalysisResult) (m : BatchMetrics),
      (rs.foldl track_batch_item m).batch_metrics_count
          = m.batch_metrics_count +
            (rs.filter (fun r => pyTruthy r.eval_count)).length
      ∧ (rs.foldl track_batch_item m).batch_total_tokens
          = m.batch_total_tokens +
            ((rs.filter (fun r => pyTruthy r.eval_count)).map
              (fun r => r.eval_count.getD 0)).sum
      ∧ (rs.foldl track_batch_item m).batch_total_prompt_tokens
          = m.batch_total_prompt_tokens +
            ((rs.filter (fun r => pyTruthy r.eval_count)).map
              (fun r => r.prompt_eval_count.getD 0)).sum
      ∧ (rs.foldl track_batch_item m).batch_total_eval_duration
          = m.batch_total_eval_duration +
            ((rs.filter (fun r => pyTruthy r.eval_count)).map
              (fun r => r.eval_duration.getD 0)).sum := by
  intro rs
  induction rs with
  | nil => intro m; simp
  | cons r rest ih =>
    intro m
    by_cases h : pyTruthy r.eval_count
    · have := ih (track_batch_item m r)
      simp only [List.foldl_cons, List.filter_cons, h, if_true, List.map_cons,
        List.sum_cons, List.length_cons]
      simp only [track_batch_item, h, if_true] at this ⊢
      refine ⟨?_, ?_, ?_, ?_⟩ <;> omega
    · have := ih (track_batch_item m r)
      simp only [List.foldl_cons, List.filter_cons, h, if_false]
      simp only [track_batch_item, h, if_false] at this ⊢
      exact this

/-- C8 (amended): an item is added to the running sums iff it reported a
truthy (present and nonzero) response-token count `eval_count`; items
without it contribute nothing anywhere; but for counted items every
*other* missing counter is zero-filled into its sum (`or 0`), entering
the corresponding average's numerator while the item still counts in the
denominator.  The displayed average throughput equals the sum of
response tokens over counted items divided by the sum of their response
durations in seconds (missing durations as zero), whenever that duration
sum is positive. -/
theorem C8_metrics_amended :
    (∀ m r, pyTruthy r.eval_count = false → track_batch_item m r = m)
    ∧ (∀ rs, (trackAll rs).batch_metrics_count =
        (rs.filter (fun r => pyTruthy r.eval_count)).length)
    ∧ (∀ rs, (trackAll rs).batch_total_tokens =
        ((rs.filter (fun r => pyTruthy r.eval_count)).map
          (fun r => r.eval_count.getD 0)).sum)
    ∧ (∀ rs, (trackAll rs).batch_total_prompt_tokens =
        ((rs.filter (fun r => pyTruthy r.eval_count)).map
          (fun r => r.prompt_eval_count.getD 0)).sum)
    ∧ (∀ rs, (trackAll rs).batch_total_eval_duration =
        ((rs.filter (fun r => pyTruthy r.eval_count)).map
          (fun r => r.eval_duration.getD 0)).sum)
    ∧ (∀ rs,
        ((rs.filter (fun r => pyTruthy r.eval_count)).map
          (fun r => r.eval_duration.getD 0)).sum > 0 →
        avg_tokens_per_sec (trackAll rs) =
          some (((((rs.filter (fun r => pyTruthy r.eval_count)).map
              (fun r => r.eval_count.getD 0)).sum : Nat) : ℚ) /
            (((((rs.filter (fun r => pyTruthy r.eval_count)).map
              (fun r => r.eval_duration.getD 0)).sum : Nat) : ℚ) / 1000000000))) := by
  have hcount : ∀ rs : List AnalysisResult, (trackAll rs).batch_metrics_count =
      (rs.filter (fun r => pyTruthy r.eval_count)).length := by
    intro rs
    have := (trackAll_fold rs initMetrics).1
    simpa [trackAll, initMetrics] using this
  have htok : ∀ rs : List AnalysisResult, (trackAll rs).batch_total_tokens =
      ((rs.filter (fun r => pyTruthy r.eval_count)).map
        (fun r => r.eval_count.getD 0)).sum := by
    intro rs
    have := (trackAll_fold rs initMetrics).2.1
    simpa [trackAll, initMetrics] using this
  have hdur : ∀ rs : List AnalysisResult, (trackAll rs).batch_total_eval_duration =
      ((rs.filter (fun r => pyTruthy r.eval_count)).map
        (fun r => r.eval_duration.getD 0)).sum := by
    intro rs
    have := (trackAll_fold rs initMetrics).2.2.2
    simpa [trackAll, initMetrics] using this
  refine ⟨?_, hcount, htok, ?_, hdur, ?_⟩
  · intro m r h
    simp [track_batch_item, h]
  · intro rs
    have := (trackAll_fold rs initMetrics).2.2.1
    simpa [trackAll, initMetrics] using this
  · intro rs hsum
    have hne : (rs.filter (fun r => pyTruthy r.eval_count)).length ≠ 0 := by
      intro h0
      rw [List.length_eq_zero] at h0
      rw [h0] at hsum
      simp at hsum
    unfold avg_tokens_per_sec
    rw [if_pos ⟨by rw [hcount]; exact hne, by rw [hdur]; exact hsum⟩]
    rw [htok, hdur]

/-- C8 witness: the throughput formula of `C8_metrics_amended` at the
one-item batch `[rFull]`. -/
theorem C8_metrics_amended_witness :
    avg_tokens_per_sec (trackAll [rFull]) =
      some ((((([rFull].filter (fun r => pyTruthy r.eval_count)).map
          (fun r => r.eval_count.getD 0)).sum : Nat) : ℚ) /
        ((((([rFull].filter (fun r => pyTruthy r.eval_count)).map
          (fun r => r.eval_duration.getD 0)).sum : Nat) : ℚ) / 1000000000)) :=
  C8_metrics_amended.2.2.2.2.2 [rFull] (by norm_num [pyTruthy, rFull])

/-! ## ETA — `MainWindow._update_batch_progress_with_eta`

Called from `_on_batch_item_finished` with the incremented completion
count after every completion, with `elapsed = time.time() -
self.batch_start_time` and `batch_start_time` captured once in
`_on_batch_started`.  With `completed == 0` no ETA is shown.  Wall-clock
floats are carried as exact rationals. -/

def compute_eta (completed total : Nat) (elapsed : ℚ) : Option ℚ :=
  if completed = 0 then none
  else some (elapsed / (completed : ℚ) * ((total : ℚ) - (completed : ℚ)))

/-- C9: no ETA before the first completion; after `N` of `T` completions
with elapsed wall time `e` the ETA is `(e / N) * (T - N)`; 2 of 10 items
in 10 elapsed seconds give exactly 40 seconds remaining. -/
theorem C9_eta :
    (∀ t e, compute_eta 0 t e = none)
    ∧ (∀ n t e, n ≠ 0 →
        compute_eta n t e = some (e / (n : ℚ) * ((t : ℚ) - (n : ℚ))))
    ∧ compute_eta 2 10 10 = some 40 := by
  refine ⟨fun t e => rfl, fun n t e hn => by simp [compute_eta, hn], ?_⟩
  simp [compute_eta]
  norm_num

/-- C9 witness: the formula instantiated at 3 of 10 items after 5
seconds. -/
theorem C9_eta_witness :
    compute_eta 3 10 5 = some (5 / (3 : ℚ) * ((10 : ℚ) - (3 : ℚ))) :=
  C9_eta.2.1 3 10 5 (by decide)

end PhotoAnalyzer
